import Mathlib

/-!
Verification of the computation engine of `demo_grupo7.py`
(`TransmissionLineAnalyzer`): power-loss, voltage-regulation and
corona-risk models plus the orchestrating `generate_performance_analysis`.

The Python float arithmetic is embedded into the real numbers `ℝ`
(`np.sqrt` is `Real.sqrt`, `np.log` is `Real.log`, `cmath` complex
arithmetic is `ℂ` with the principal branches matching Python's, and
`float` division is real division).  The only arithmetic exceptions the
Python bodies can actually raise are `ZeroDivisionError`s on divisions of
pure Python floats (numpy scalar divisions produce inf/nan instead of
raising); those division-by-zero sites are modelled explicitly as the
error branches of the result types, mirroring the `try/except` blocks
that convert them into error-tagged dictionaries.
-/

noncomputable section

/-- The system frequency constant (`SYSTEM_FREQUENCY = 60` Hz). -/
def SYSTEM_FREQUENCY : ℝ := 60

/-- Fields of the normal (non-degenerate) result dictionary of
`calculate_power_losses`; `efficiency_pct` stands for the `"efficiency_%"`
key and `current_density` for `"current_density_A_per_mm2"`. -/
structure LossOk where
  current_A : ℝ
  losses_MW : ℝ
  losses_W : ℝ
  efficiency_pct : ℝ
  losses_percentage : ℝ
  current_density : ℝ

/-- Result dictionary of `calculate_power_losses`.  `degenerate` models the
dictionary returned on `voltage_kV <= 0`, which carries only the keys
`current_A`, `losses_MW`, `efficiency_%` and the `error` marker. -/
inductive LossResult where
  | degenerate (current_A losses_MW efficiency_pct : ℝ) (error : String)
  | ok (r : LossOk)

/-- True when the returned dictionary carries the `"error"` key. -/
def LossResult.hasErrorKey : LossResult → Bool
  | .degenerate _ _ _ _ => true
  | .ok _ => false

/-- `TransmissionLineAnalyzer.calculate_power_losses`.  The `try/except`
wrapper is not modelled because no operation in the body can raise: the
current divides by a numpy scalar (inf/nan semantics, no exception), and
the remaining divisions are by the nonzero constants `1e6` and
`np.pi * 1.77**2`. -/
def calculate_power_losses (voltage_kV power_MVA resistance_ohm : ℝ) :
    LossResult :=
  if voltage_kV ≤ 0 then
    .degenerate 0 0 0 "Voltaje inválido"
  else
    let current_A := (power_MVA * 1e6) / (Real.sqrt 3 * voltage_kV * 1e3)
    let losses_W := 3 * current_A ^ 2 * resistance_ohm
    let losses_MW := losses_W / 1e6
    let efficiency :=
      if power_MVA > 0 then ((power_MVA - losses_MW) / power_MVA) * 100 else 0
    .ok
      { current_A := current_A
        losses_MW := losses_MW
        losses_W := losses_W
        efficiency_pct := efficiency
        losses_percentage :=
          if power_MVA > 0 then (losses_MW / power_MVA) * 100 else 0
        current_density :=
          if power_MVA > 0 then current_A / (Real.pi * 1.77 ^ 2) else 0 }

/-- Claim C2, as stated: for `voltage_kV ≤ 0` the returned dictionary would
carry no error marker.  Refuted at `voltage_kV = -1`: the code returns the
degenerate dictionary carrying the `"error"` key (`"Voltaje inválido"`),
distinguishing it from a normal result. -/
theorem losses_degenerate_is_error_marked :
    (calculate_power_losses (-1) 100 10).hasErrorKey = true := by
  have h : ((-1 : ℝ) ≤ 0) := by norm_num
  simp [calculate_power_losses, if_pos h, LossResult.hasErrorKey]

/-- Claim C2, amended: for `voltage_kV ≤ 0`, `calculate_power_losses`
returns `current_A = 0`, `losses_MW = 0` and `efficiency_% = 0` exactly,
but the result carries the error marker `"Voltaje inválido"`, so it is
distinguishable from a normal result. -/
theorem losses_nonpositive_voltage_zeroed (v p r : ℝ) (hv : v ≤ 0) :
    calculate_power_losses v p r = .degenerate 0 0 0 "Voltaje inválido" := by
  simp [calculate_power_losses, if_pos hv]

/-- Witness for the amended claim C2 at `voltage_kV = -1`. -/
theorem losses_nonpositive_voltage_zeroed_witness :
    ((-1 : ℝ) ≤ 0) ∧
      calculate_power_losses (-1) 100 10 =
        .degenerate 0 0 0 "Voltaje inválido" :=
  ⟨by norm_num, losses_nonpositive_voltage_zeroed (-1) 100 10 (by norm_num)⟩

/-- Claim C4: for `voltage_kV > 0` the loss model returns exactly the
three-phase current, ohmic-loss and efficiency formulas of the source, and
for zero resistance with positive power the losses vanish and the
efficiency is 100 %. -/
theorem losses_formulas (v p r : ℝ) (hv : 0 < v) :
    ∃ res : LossOk, calculate_power_losses v p r = .ok res ∧
      res.current_A = (p * 1e6) / (Real.sqrt 3 * v * 1e3) ∧
      res.losses_W = 3 * res.current_A ^ 2 * r ∧
      res.losses_MW = res.losses_W / 1e6 ∧
      res.efficiency_pct =
        (if 0 < p then ((p - res.losses_MW) / p) * 100 else 0) ∧
      res.losses_percentage =
        (if 0 < p then (res.losses_MW / p) * 100 else 0) ∧
      (r = 0 → 0 < p → res.losses_MW = 0 ∧ res.efficiency_pct = 100) := by
  have hv' : ¬ (v ≤ 0) := not_le.mpr hv
  refine ⟨_, by rw [calculate_power_losses, if_neg hv'], rfl, rfl, rfl,
    by simp [gt_iff_lt], by simp [gt_iff_lt], ?_⟩
  intro hr hp
  subst hr
  constructor
  · ring
  · have hL : (3 : ℝ) * ((p * 1e6) / (Real.sqrt 3 * v * 1e3)) ^ 2 * 0 / 1e6
        = 0 := by ring
    simp only [hL, gt_iff_lt, hp, if_pos, sub_zero]
    field_simp

/-- Witness for claim C4 at `voltage_kV = 230`, `power_MVA = 300`,
`resistance_ohm = 15`. -/
theorem losses_formulas_witness :
    (0 : ℝ) < 230 ∧
      ∃ res : LossOk, calculate_power_losses 230 300 15 = .ok res ∧
        res.current_A = (300 * 1e6) / (Real.sqrt 3 * 230 * 1e3) ∧
        res.losses_W = 3 * res.current_A ^ 2 * 15 ∧
        res.losses_MW = res.losses_W / 1e6 ∧
        res.efficiency_pct =
          (if (0 : ℝ) < 300 then ((300 - res.losses_MW) / 300) * 100 else 0) ∧
        res.losses_percentage =
          (if (0 : ℝ) < 300 then (res.losses_MW / 300) * 100 else 0) ∧
        ((15 : ℝ) = 0 → (0 : ℝ) < 300 →
          res.losses_MW = 0 ∧ res.efficiency_pct = 100) :=
  ⟨by norm_num, losses_formulas 230 300 15 (by norm_num)⟩

/-- Claim C9: for `voltage_kV > 0` and `power_MVA > 0` the returned fields
satisfy `efficiency_% + losses_percentage = 100` and
`losses_MW = losses_W / 1e6`. -/
theorem losses_consistency (v p r : ℝ) (hv : 0 < v) (hp : 0 < p) :
    ∃ res : LossOk, calculate_power_losses v p r = .ok res ∧
      res.efficiency_pct + res.losses_percentage = 100 ∧
      res.losses_MW = res.losses_W / 1e6 := by
  have hv' : ¬ (v ≤ 0) := not_le.mpr hv
  refine ⟨_, by rw [calculate_power_losses, if_neg hv'], ?_, rfl⟩
  simp only [gt_iff_lt, hp, if_pos]
  have hp' : p ≠ 0 := ne_of_gt hp
  field_simp
  ring

/-- Witness for claim C9 at `voltage_kV = 230`, `power_MVA = 300`,
`resistance_ohm = 15`. -/
theorem losses_consistency_witness :
    (0 : ℝ) < 230 ∧ (0 : ℝ) < 300 ∧
      ∃ res : LossOk, calculate_power_losses 230 300 15 = .ok res ∧
        res.efficiency_pct + res.losses_percentage = 100 ∧
        res.losses_MW = res.losses_W / 1e6 :=
  ⟨by norm_num, by norm_num,
    losses_consistency 230 300 15 (by norm_num) (by norm_num)⟩

/-- Fields of the normal result dictionary of `verify_corona_effect`;
`safety_margin_pct` stands for the `"safety_margin_%"` key. -/
structure CoronaOk where
  operating_voltage_phase_kV : ℝ
  critical_disruptive_voltage_kV : ℝ
  air_density_delta : ℝ
  corona_probable : Bool
  safety_margin_pct : ℝ
  risk_level : String
  risk_color : String
  recommendation : String
  gradient_kV_per_cm : ℝ

/-- Result dictionary of `verify_corona_effect`: either the normal
dictionary or the `except` branch's error dictionary. -/
inductive CoronaResult where
  | ok (r : CoronaOk)
  | error (msg : String)

/-- `TransmissionLineAnalyzer.verify_corona_effect`.  Two operations in
the body divide pure Python floats and hence raise `ZeroDivisionError`
(caught by the `except` clause): the air-density quotient when
`273 + temp_C = 0`, and `DMG_cm / conductor_radius_cm` when
`conductor_radius_cm = 0`.  They are modelled as the two error branches,
in source evaluation order.  All other divisions involve numpy scalars
and never raise. -/
def verify_corona_effect (V_nominal_kV conductor_radius_cm DMG_cm
    roughness_factor temp_C pressure_atm : ℝ) : CoronaResult :=
  if (273 : ℝ) + temp_C = 0 then
    .error "Error en análisis de corona: float division by zero"
  else if conductor_radius_cm = 0 then
    .error "Error en análisis de corona: float division by zero"
  else
    let pressure_cmHg := pressure_atm * 76
    let delta := (3.92 * pressure_cmHg) / (273 + temp_C)
    let Vd_kV_phase := 21.1 * roughness_factor * delta * conductor_radius_cm *
      Real.log (DMG_cm / conductor_radius_cm)
    let V_op_kV_phase := V_nominal_kV / Real.sqrt 3
    let has_corona := decide (V_op_kV_phase > Vd_kV_phase)
    let safety_margin := ((Vd_kV_phase - V_op_kV_phase) / V_op_kV_phase) * 100
    .ok
      { operating_voltage_phase_kV := V_op_kV_phase
        critical_disruptive_voltage_kV := Vd_kV_phase
        air_density_delta := delta
        corona_probable := has_corona
        safety_margin_pct := safety_margin
        risk_level :=
          if safety_margin > 20 then "Riesgo Bajo"
          else if safety_margin > 10 then "Riesgo Medio"
          else "Riesgo Alto"
        risk_color :=
          if safety_margin > 20 then "green"
          else if safety_margin > 10 then "orange"
          else "red"
        recommendation :=
          if safety_margin > 20 then "Operación segura sin riesgo de corona"
          else if safety_margin > 10 then "Monitorear condiciones atmosféricas"
          else "Considerar rediseño o cambio de conductor"
        gradient_kV_per_cm := V_op_kV_phase / conductor_radius_cm }

/-- Claim C3: the risk tiers use strict thresholds on the safety margin —
strictly above 20 is Low, strictly above 10 (and at most 20) is Medium,
at most 10 is High; in particular a margin of exactly 20 is Medium and
exactly 10 is High, each tier with its fixed recommendation text. -/
theorem corona_risk_classification (V r D rough temp patm : ℝ)
    (htemp : (273 : ℝ) + temp ≠ 0) (hr : r ≠ 0) :
    ∃ res : CoronaOk, verify_corona_effect V r D rough temp patm = .ok res ∧
      (res.safety_margin_pct > 20 → res.risk_level = "Riesgo Bajo" ∧
        res.recommendation = "Operación segura sin riesgo de corona") ∧
      (res.safety_margin_pct > 10 → res.safety_margin_pct ≤ 20 →
        res.risk_level = "Riesgo Medio" ∧
        res.recommendation = "Monitorear condiciones atmosféricas") ∧
      (res.safety_margin_pct ≤ 10 → res.risk_level = "Riesgo Alto" ∧
        res.recommendation = "Considerar rediseño o cambio de conductor") ∧
      (res.safety_margin_pct = 20 → res.risk_level = "Riesgo Medio") ∧
      (res.safety_margin_pct = 10 → res.risk_level = "Riesgo Alto") := by
  refine ⟨_, by rw [verify_corona_effect, if_neg htemp, if_neg hr],
    ?_, ?_, ?_, ?_, ?_⟩
  all_goals dsimp only
  all_goals intros
  all_goals split_ifs
  all_goals first
    | exact ⟨rfl, rfl⟩
    | rfl
    | (exfalso; linarith)

/-- Witness for claim C3 at the spec's corona example input. -/
theorem corona_risk_classification_witness :
    ((273 : ℝ) + 25 ≠ 0) ∧ ((1.77 : ℝ) ≠ 0) ∧
      ∃ res : CoronaOk,
        verify_corona_effect 230 1.77 750 0.85 25 1 = .ok res ∧
        (res.safety_margin_pct > 20 → res.risk_level = "Riesgo Bajo" ∧
          res.recommendation = "Operación segura sin riesgo de corona") ∧
        (res.safety_margin_pct > 10 → res.safety_margin_pct ≤ 20 →
          res.risk_level = "Riesgo Medio" ∧
          res.recommendation = "Monitorear condiciones atmosféricas") ∧
        (res.safety_margin_pct ≤ 10 → res.risk_level = "Riesgo Alto" ∧
          res.recommendation = "Considerar rediseño o cambio de conductor") ∧
        (res.safety_margin_pct = 20 → res.risk_level = "Riesgo Medio") ∧
        (res.safety_margin_pct = 10 → res.risk_level = "Riesgo Alto") :=
  ⟨by norm_num, by norm_num,
    corona_risk_classification 230 1.77 750 0.85 25 1 (by norm_num)
      (by norm_num)⟩

/-- Claim C5: for `V_nominal_kV > 0` and `DMG_cm > radius_cm > 0` (with
`273 + temp_C ≠ 0`, the domain of the stated air-density formula), the
corona model returns Peek's air-density factor, the critical disruptive
voltage, the operating phase voltage, the corona comparison and the
safety margin exactly as stated. -/
theorem corona_formulas (V r D rough temp patm : ℝ)
    (hV : 0 < V) (hr : 0 < r) (hD : r < D)
    (htemp : (273 : ℝ) + temp ≠ 0) :
    ∃ res : CoronaOk, verify_corona_effect V r D rough temp patm = .ok res ∧
      res.air_density_delta = 3.92 * (76 * patm) / (273 + temp) ∧
      res.critical_disruptive_voltage_kV =
        21.1 * rough * res.air_density_delta * r * Real.log (D / r) ∧
      res.operating_voltage_phase_kV = V / Real.sqrt 3 ∧
      (res.corona_probable = true ↔
        res.operating_voltage_phase_kV >
          res.critical_disruptive_voltage_kV) ∧
      res.safety_margin_pct =
        ((res.critical_disruptive_voltage_kV -
            res.operating_voltage_phase_kV) /
          res.operating_voltage_phase_kV) * 100 := by
  have hr' : r ≠ 0 := ne_of_gt hr
  refine ⟨_, by rw [verify_corona_effect, if_neg htemp, if_neg hr'],
    by ring, rfl, rfl, ?_, rfl⟩
  simp [decide_eq_true_eq]

/-- Witness for claim C5 at the spec's corona example input. -/
theorem corona_formulas_witness :
    (0 : ℝ) < 230 ∧ (0 : ℝ) < 1.77 ∧ (1.77 : ℝ) < 750 ∧
      ((273 : ℝ) + 25 ≠ 0) ∧
      ∃ res : CoronaOk,
        verify_corona_effect 230 1.77 750 0.85 25 1 = .ok res ∧
        res.air_density_delta = 3.92 * (76 * 1) / (273 + 25) ∧
        res.critical_disruptive_voltage_kV =
          21.1 * 0.85 * res.air_density_delta * 1.77 *
            Real.log (750 / 1.77) ∧
        res.operating_voltage_phase_kV = 230 / Real.sqrt 3 ∧
        (res.corona_probable = true ↔
          res.operating_voltage_phase_kV >
            res.critical_disruptive_voltage_kV) ∧
        res.safety_margin_pct =
          ((res.critical_disruptive_voltage_kV -
              res.operating_voltage_phase_kV) /
            res.operating_voltage_phase_kV) * 100 :=
  ⟨by norm_num, by norm_num, by norm_num, by norm_num,
    corona_formulas 230 1.77 750 0.85 25 1 (by norm_num) (by norm_num)
      (by norm_num) (by norm_num)⟩

/-- Claim C10: whenever `verify_corona_effect` succeeds and
`V_nominal_kV > 0`, the returned fields satisfy
`corona_probable = true ↔ safety_margin_% < 0`. -/
theorem corona_margin_sign_iff (V r D rough temp patm : ℝ)
    (hV : 0 < V) (hr : r ≠ 0) (htemp : (273 : ℝ) + temp ≠ 0) :
    ∃ res : CoronaOk, verify_corona_effect V r D rough temp patm = .ok res ∧
      (res.corona_probable = true ↔ res.safety_margin_pct < 0) := by
  refine ⟨_, by rw [verify_corona_effect, if_neg htemp, if_neg hr], ?_⟩
  have hs3 : (0 : ℝ) < Real.sqrt 3 := Real.sqrt_pos.mpr (by norm_num)
  have hop : (0 : ℝ) < V / Real.sqrt 3 := div_pos hV hs3
  set Vd := 21.1 * rough * ((3.92 * (patm * 76)) / (273 + temp)) * r *
    Real.log (D / r) with hVd
  simp only [decide_eq_true_eq, gt_iff_lt]
  constructor
  · intro h
    have hnum : Vd - V / Real.sqrt 3 < 0 := by linarith
    have : (Vd - V / Real.sqrt 3) / (V / Real.sqrt 3) < 0 :=
      div_neg_of_neg_of_pos hnum hop
    linarith
  · intro h
    have hq : (Vd - V / Real.sqrt 3) / (V / Real.sqrt 3) < 0 := by linarith
    rcases div_neg_iff.mp hq with ⟨_, hb⟩ | ⟨ha, _⟩
    · exact absurd hop (not_lt.mpr (le_of_lt hb))
    · linarith

/-- Witness for claim C10 at the spec's corona example input. -/
theorem corona_margin_sign_iff_witness :
    (0 : ℝ) < 230 ∧ ((1.77 : ℝ) ≠ 0) ∧ ((273 : ℝ) + 25 ≠ 0) ∧
      ∃ res : CoronaOk,
        verify_corona_effect 230 1.77 750 0.85 25 1 = .ok res ∧
        (res.corona_probable = true ↔ res.safety_margin_pct < 0) :=
  ⟨by norm_num, by norm_num, by norm_num,
    corona_margin_sign_iff 230 1.77 750 0.85 25 1 (by norm_num) (by norm_num)
      (by norm_num)⟩

/-- Claim C8, as stated: it quantifies over every temperature, but for
`273 + temp_C < 0` the air-density factor is negative and the critical
disruptive voltage strictly decreases in `DMG_cm`.  Refuted at
`radius_cm = 1 > 0`, `roughness = 1 > 0`, `pressure_atm = 1 > 0`,
`V_nominal_kV = 1 > 0`, `temp_C = -373`, with `DMG_cm` growing from 2 to
4 (both above the radius): Vd drops. -/
theorem corona_Vd_not_monotone_cold :
    ∃ r1 r2 : CoronaOk,
      verify_corona_effect 1 1 2 1 (-373) 1 = .ok r1 ∧
      verify_corona_effect 1 1 4 1 (-373) 1 = .ok r2 ∧
      r2.critical_disruptive_voltage_kV <
        r1.critical_disruptive_voltage_kV := by
  have htemp : ((273 : ℝ) + (-373) ≠ 0) := by norm_num
  have hr : ((1 : ℝ) ≠ 0) := by norm_num
  refine ⟨_, _, by rw [verify_corona_effect, if_neg htemp, if_neg hr],
    by rw [verify_corona_effect, if_neg htemp, if_neg hr], ?_⟩
  dsimp only
  have hlog : Real.log (2 / 1) < Real.log (4 / 1) := by
    apply Real.log_lt_log <;> norm_num
  have hc : (21.1 : ℝ) * 1 * (3.92 * (1 * 76) / (273 + (-373))) * 1 < 0 := by
    norm_num
  calc 21.1 * 1 * (3.92 * (1 * 76) / (273 + (-373))) * 1 *
        Real.log (4 / 1)
      < 21.1 * 1 * (3.92 * (1 * 76) / (273 + (-373))) * 1 *
        Real.log (2 / 1) := by
        exact mul_lt_mul_of_neg_left hlog hc

/-- Claim C8, amended: with the additional hypothesis `273 + temp_C > 0`
(so the air-density factor is positive), for fixed `radius_cm > 0`,
`roughness > 0`, `pressure_atm > 0` and `V_nominal_kV > 0` the critical
disruptive voltage is strictly increasing in `DMG_cm` over
`DMG_cm > radius_cm`, and once `corona_probable` is false it stays false
for every larger `DMG_cm`. -/
theorem corona_Vd_monotone (V r D1 D2 rough temp patm : ℝ)
    (hV : 0 < V) (hr : 0 < r) (hrough : 0 < rough) (hpatm : 0 < patm)
    (htemp : 0 < (273 : ℝ) + temp) (h1 : r < D1) (h12 : D1 < D2) :
    ∃ r1 r2 : CoronaOk,
      verify_corona_effect V r D1 rough temp patm = .ok r1 ∧
      verify_corona_effect V r D2 rough temp patm = .ok r2 ∧
      r1.critical_disruptive_voltage_kV <
        r2.critical_disruptive_voltage_kV ∧
      (r1.corona_probable = false → r2.corona_probable = false) := by
  have htemp' : ((273 : ℝ) + temp ≠ 0) := ne_of_gt htemp
  have hr' : r ≠ 0 := ne_of_gt hr
  refine ⟨_, _, by rw [verify_corona_effect, if_neg htemp', if_neg hr'],
    by rw [verify_corona_effect, if_neg htemp', if_neg hr'], ?_, ?_⟩
  all_goals dsimp only
  · have hlog : Real.log (D1 / r) < Real.log (D2 / r) := by
      apply Real.log_lt_log
      · exact div_pos (lt_trans hr h1) hr
      · exact (div_lt_div_iff_of_pos_right hr).mpr h12
    have hc : 0 < 21.1 * rough * (3.92 * (patm * 76) / (273 + temp)) * r := by
      have hdelta : 0 < 3.92 * (patm * 76) / (273 + temp) := by positivity
      positivity
    exact mul_lt_mul_of_pos_left hlog hc
  · intro h1f
    have hlog : Real.log (D1 / r) < Real.log (D2 / r) := by
      apply Real.log_lt_log
      · exact div_pos (lt_trans hr h1) hr
      · exact (div_lt_div_iff_of_pos_right hr).mpr h12
    have hc : 0 < 21.1 * rough * (3.92 * (patm * 76) / (273 + temp)) * r := by
      have hdelta : 0 < 3.92 * (patm * 76) / (273 + temp) := by positivity
      positivity
    have hVd : 21.1 * rough * (3.92 * (patm * 76) / (273 + temp)) * r *
          Real.log (D1 / r) <
        21.1 * rough * (3.92 * (patm * 76) / (273 + temp)) * r *
          Real.log (D2 / r) := mul_lt_mul_of_pos_left hlog hc
    simp only [decide_eq_false_iff_not, gt_iff_lt, not_lt] at h1f ⊢
    linarith

/-- Witness for the amended claim C8 at `V = 230`, `radius = 1`, the pair
`DMG = 2 < 4`, `roughness = 0.85`, `temp = 25`, `pressure = 1`. -/
theorem corona_Vd_monotone_witness :
    (0 : ℝ) < 230 ∧ (0 : ℝ) < 1 ∧ (0 : ℝ) < 0.85 ∧ (0 : ℝ) < 1 ∧
      (0 : ℝ) < 273 + 25 ∧ (1 : ℝ) < 2 ∧ (2 : ℝ) < 4 ∧
      ∃ r1 r2 : CoronaOk,
        verify_corona_effect 230 1 2 0.85 25 1 = .ok r1 ∧
        verify_corona_effect 230 1 4 0.85 25 1 = .ok r2 ∧
        r1.critical_disruptive_voltage_kV <
          r2.critical_disruptive_voltage_kV ∧
        (r1.corona_probable = false → r2.corona_probable = false) :=
  ⟨by norm_num, by norm_num, by norm_num, by norm_num, by norm_num,
    by norm_num, by norm_num,
    corona_Vd_monotone 230 1 2 4 0.85 25 1 (by norm_num) (by norm_num)
      (by norm_num) (by norm_num) (by norm_num) (by norm_num) (by norm_num)⟩

/-- Fields of the normal result dictionary of
`calculate_voltage_regulation`; `regulation_pct` stands for the
`"regulation_%"` key and `impedance_magnitude_ohm`,
`propagation_constant` for the two diagnostic magnitudes. -/
structure RegulationOk where
  regulation_pct : ℝ
  voltage_drop_kV : ℝ
  sending_voltage_kV : ℝ
  no_load_voltage_kV : ℝ
  impedance_magnitude_ohm : ℝ
  propagation_constant : ℝ

/-- Result dictionary of `calculate_voltage_regulation`.
`infiniteRegulation` models the dictionary returned when the full-load
receiving phase voltage magnitude is 0: it carries
`"regulation_%": float('inf')` (encoded by the constructor itself, since
`ℝ` has no infinity), the given `voltage_drop_kV` and the `error` marker.
`error` models the `except` branch's error dictionary. -/
inductive RegulationResult where
  | infiniteRegulation (voltage_drop_kV : ℝ) (error : String)
  | ok (r : RegulationOk)
  | error (msg : String)

/-- `TransmissionLineAnalyzer.calculate_voltage_regulation`.  Three
operations in the body divide pure Python values and hence raise (caught
by the `except` clause), each modelled as an error branch in source
evaluation order: the float divisions `/ length_km` when
`length_km = 0`; the complex division `z / y` when `y = 0` (i.e. when
`C_F = 0`, raising `ZeroDivisionError: complex division by zero` —
`w = 2*np.pi*60` is a plain Python float, so `z` and `y` are plain
Python complex numbers); and the float division
`abs(V_S_phasor_full_load) / abs(A)` when `abs(A) = 0`, which sits
before the `V_R_full_load == 0` check.  All remaining divisions involve
numpy scalars and never raise.  The complex arithmetic uses the
principal branches, matching `cmath`: `_ ^ (1/2 : ℂ)` (the principal
complex power) is `cmath.sqrt`, and `cmath.rect r phi = r * exp(i*phi)`. -/
def calculate_voltage_regulation (R_ohm L_H C_F length_km V_R_kV S_R_MVA
    pf_R : ℝ) (lagging : Bool := true) : RegulationResult :=
  if length_km = 0 then
    .error "Error en cálculo de regulación: float division by zero"
  else
    let w : ℝ := 2 * Real.pi * SYSTEM_FREQUENCY
    let z : ℂ := ((R_ohm / length_km : ℝ) : ℂ) +
      Complex.I * ((w * L_H / length_km : ℝ) : ℂ)
    let y : ℂ := Complex.I * ((w * C_F / length_km : ℝ) : ℂ)
    let propagation_constant := (z * y) ^ (1 / 2 : ℂ)
    if y = 0 then
      .error "Error en cálculo de regulación: complex division by zero"
    else
      let characteristic_impedance := (z / y) ^ (1 / 2 : ℂ)
      let A := Complex.cosh (propagation_constant * (length_km : ℂ))
      let B := characteristic_impedance *
        Complex.sinh (propagation_constant * (length_km : ℂ))
      let V_R_phase : ℝ := (V_R_kV * 1000) / Real.sqrt 3
      let pf_angle : ℝ :=
        if lagging then -(Real.arccos pf_R) else Real.arccos pf_R
      let I_R : ℝ := (S_R_MVA * 1e6) / (Real.sqrt 3 * V_R_kV * 1000)
      let I_R_phasor : ℂ := (I_R : ℂ) *
        Complex.exp ((pf_angle : ℂ) * Complex.I)
      let V_S_phasor_full_load := A * (V_R_phase : ℂ) + B * I_R_phasor
      if Complex.abs A = 0 then
        .error "Error en cálculo de regulación: float division by zero"
      else
        let V_R_no_load := Complex.abs V_S_phasor_full_load / Complex.abs A
        let V_R_full_load := |V_R_phase|
        if V_R_full_load = 0 then
          .infiniteRegulation 0 "Voltaje de recepción inválido"
        else
          .ok
            { regulation_pct :=
                ((V_R_no_load - V_R_full_load) / V_R_full_load) * 100
              voltage_drop_kV :=
                (V_R_no_load - V_R_full_load) * Real.sqrt 3 / 1000
              sending_voltage_kV :=
                Complex.abs V_S_phasor_full_load * Real.sqrt 3 / 1000
              no_load_voltage_kV := V_R_no_load * Real.sqrt 3 / 1000
              impedance_magnitude_ohm :=
                Complex.abs characteristic_impedance
              propagation_constant := Complex.abs propagation_constant }

/-- Claim C6, as stated: every input with `V_R_kV = 0` would return the
`regulation_% = +infinity`, `voltage_drop_kV = 0` dictionary.  Refuted at
`C_F = 0` (with `length_km = 200`, `V_R_kV = 0`): there `y = 0j`, the
pure-Python complex division `z / y` raises `ZeroDivisionError: complex
division by zero` before the receiving-voltage check is reached, and the
`except` branch returns the error dictionary instead. -/
theorem regulation_error_dict_at_zero_capacitance :
    calculate_voltage_regulation 15 0.35 0 200 0 300 0.95 true =
      .error "Error en cálculo de regulación: complex division by zero" ∧
    calculate_voltage_regulation 15 0.35 0 200 0 300 0.95 true ≠
      .infiniteRegulation 0 "Voltaje de recepción inválido" := by
  have h : calculate_voltage_regulation 15 0.35 0 200 0 300 0.95 true =
      .error "Error en cálculo de regulación: complex division by zero" := by
    rw [calculate_voltage_regulation,
      if_neg (by norm_num : (200 : ℝ) ≠ 0)]
    dsimp only
    rw [if_pos (show Complex.I *
      ((2 * Real.pi * SYSTEM_FREQUENCY * 0 / 200 : ℝ) : ℂ) = 0 by simp)]
  refine ⟨h, ?_⟩
  rw [h]
  simp

/-- Claim C6, amended: for every input with `V_R_kV = 0` — the only way
the full-load receiving phase voltage magnitude is exactly 0 — on which
the regulation body does not raise earlier, the function returns the
degenerate dictionary with `regulation_% = +infinity` and
`voltage_drop_kV = 0` instead of raising.  "Does not raise earlier"
is exactly: `length_km ≠ 0` (the spec's §4.2 caller precondition), the
shunt admittance `y ≠ 0` (equivalently `C_F ≠ 0`), and `abs A ≠ 0`
(the no-load division's denominator); when one of those fails the
`except` branch returns the error dictionary instead. -/
theorem regulation_zero_receiving_voltage (R L C len S pf : ℝ)
    (lagging : Bool) (hlen : len ≠ 0)
    (hy : Complex.I *
      ((2 * Real.pi * SYSTEM_FREQUENCY * C / len : ℝ) : ℂ) ≠ 0)
    (hA : Complex.abs (Complex.cosh
      (((((R / len : ℝ) : ℂ) + Complex.I *
          ((2 * Real.pi * SYSTEM_FREQUENCY * L / len : ℝ) : ℂ)) *
        (Complex.I *
          ((2 * Real.pi * SYSTEM_FREQUENCY * C / len : ℝ) : ℂ))) ^
        (1 / 2 : ℂ) * (len : ℂ))) ≠ 0) :
    calculate_voltage_regulation R L C len 0 S pf lagging =
      .infiniteRegulation 0 "Voltaje de recepción inválido" := by
  rw [calculate_voltage_regulation, if_neg hlen]
  dsimp only
  rw [if_neg hy, if_neg hA,
    if_pos (show |(0 : ℝ) * 1000 / Real.sqrt 3| = 0 by simp)]

/-- Witness for the amended claim C6 at `R = 0`, `L = 0`, `C_F = 1`,
`length_km = 200`, `V_R_kV = 0`: there `z = 0`, so `A = cosh 0 = 1` and
both no-raise hypotheses are checkable. -/
theorem regulation_zero_receiving_voltage_witness :
    ((200 : ℝ) ≠ 0) ∧
    (Complex.I *
      ((2 * Real.pi * SYSTEM_FREQUENCY * 1 / 200 : ℝ) : ℂ) ≠ 0) ∧
    (Complex.abs (Complex.cosh
      ((((((0 : ℝ) / 200 : ℝ) : ℂ) + Complex.I *
          ((2 * Real.pi * SYSTEM_FREQUENCY * 0 / 200 : ℝ) : ℂ)) *
        (Complex.I *
          ((2 * Real.pi * SYSTEM_FREQUENCY * 1 / 200 : ℝ) : ℂ))) ^
        (1 / 2 : ℂ) * ((200 : ℝ) : ℂ))) ≠ 0) ∧
      calculate_voltage_regulation 0 0 1 200 0 300 0.95 true =
        .infiniteRegulation 0 "Voltaje de recepción inválido" :=
  ⟨by norm_num,
    mul_ne_zero Complex.I_ne_zero (Complex.ofReal_ne_zero.mpr (by
      simp only [SYSTEM_FREQUENCY]
      positivity)),
    by
      simp [SYSTEM_FREQUENCY,
        Complex.zero_cpow (show (1 / 2 : ℂ) ≠ 0 by norm_num)],
    regulation_zero_receiving_voltage 0 0 1 200 300 0.95 true
      (by norm_num)
      (mul_ne_zero Complex.I_ne_zero (Complex.ofReal_ne_zero.mpr (by
        simp only [SYSTEM_FREQUENCY]
        positivity)))
      (by
        simp [SYSTEM_FREQUENCY,
          Complex.zero_cpow (show (1 / 2 : ℂ) ≠ 0 by norm_num)])⟩

/-- The `line_params` dictionary consumed by
`generate_performance_analysis`, with its exact keys. -/
structure LineParameters where
  resistance_total_ohm : ℝ
  inductance_total_H : ℝ
  capacitance_total_F : ℝ
  length_km : ℝ
  conductor_radius_cm : ℝ
  DMG_cm : ℝ

/-- The `operating_conditions` dictionary. -/
structure OperatingConditions where
  reception_voltage_kV : ℝ
  reception_power_MVA : ℝ
  power_factor : ℝ

/-- The `environmental_conditions` dictionary. -/
structure EnvironmentalConditions where
  roughness_factor : ℝ
  temperature_C : ℝ
  pressure_atm : ℝ

/-- The dictionary returned by `generate_performance_analysis`:
the three section results plus the `time.time()` capture timestamp. -/
structure AnalysisReport where
  losses : LossResult
  regulation : RegulationResult
  corona : CoronaResult
  timestamp : ℝ

/-- `TransmissionLineAnalyzer` instance state: `__init__` sets
`self.results_history = []` and nothing in the class ever writes to it
again. -/
structure TransmissionLineAnalyzer where
  results_history : List AnalysisReport

/-- `TransmissionLineAnalyzer.generate_performance_analysis`.  The method
reads the three parameter dictionaries, runs the three models and returns
the merged report with `time.time()` (passed here as `now`).  The method
body contains no assignment to `self.results_history`, so the analyzer
state is returned unchanged. -/
def generate_performance_analysis (self : TransmissionLineAnalyzer)
    (line_params : LineParameters) (operating_conditions : OperatingConditions)
    (environmental_conditions : EnvironmentalConditions) (now : ℝ) :
    AnalysisReport × TransmissionLineAnalyzer :=
  let R_ohm := line_params.resistance_total_ohm
  let L_H := line_params.inductance_total_H
  let C_F := line_params.capacitance_total_F
  let length_km := line_params.length_km
  let radius_cm := line_params.conductor_radius_cm
  let DMG_cm := line_params.DMG_cm
  let V_R_kV := operating_conditions.reception_voltage_kV
  let S_R_MVA := operating_conditions.reception_power_MVA
  let pf_R := operating_conditions.power_factor
  let roughness_factor := environmental_conditions.roughness_factor
  let temp_C := environmental_conditions.temperature_C
  let pressure_atm := environmental_conditions.pressure_atm
  let losses_analysis := calculate_power_losses V_R_kV S_R_MVA R_ohm
  let regulation_analysis := calculate_voltage_regulation R_ohm L_H C_F
    length_km V_R_kV S_R_MVA pf_R true
  let corona_analysis := verify_corona_effect V_R_kV radius_cm DMG_cm
    roughness_factor temp_C pressure_atm
  (⟨losses_analysis, regulation_analysis, corona_analysis, now⟩, self)

/-- Claim C1, as stated: after a call to `generate_performance_analysis`
the history would be one element longer.  Refuted at a concrete input:
starting from the freshly constructed analyzer (empty history), the
history length after the call is still 0, not 1 — the method never
appends to `results_history`. -/
theorem analyze_does_not_append :
    ¬ ((generate_performance_analysis ⟨[]⟩
          ⟨15, 0.35, 0.0000025, 200, 1.77, 750⟩ ⟨230, 300, 0.95⟩
          ⟨0.85, 25, 1⟩ 0).2.results_history.length =
        (TransmissionLineAnalyzer.mk []).results_history.length + 1) := by
  intro h
  simp [generate_performance_analysis] at h

/-- Claim C1, amended: the returned report carries the capture timestamp
(`time.time()` at call time), but the analyzer's `results_history` is
left completely unchanged by the call — the report is never appended. -/
theorem analyze_timestamp_and_unchanged_history
    (self : TransmissionLineAnalyzer) (lp : LineParameters)
    (oc : OperatingConditions) (ec : EnvironmentalConditions) (now : ℝ) :
    (generate_performance_analysis self lp oc ec now).1.timestamp = now ∧
      (generate_performance_analysis self lp oc ec now).2.results_history =
        self.results_history :=
  ⟨rfl, rfl⟩

/-- Claim C7: the three sub-analyses are attempted independently.  For an
input that makes exactly the corona model raise
(`conductor_radius_cm = 0`, a pure-Python-float `ZeroDivisionError`)
while the other two models stay on their normal paths (`length_km ≠ 0`,
positive reception voltage, and the regulation body's own raise sites
excluded: shunt admittance `y ≠ 0` and `abs A ≠ 0`), the merged report
carries the corona section as a tagged failure with its descriptive
message, while the losses and regulation sections hold their normal
computed results, and the orchestrator returns without raising. -/
theorem analyze_isolates_corona_failure (self : TransmissionLineAnalyzer)
    (lp : LineParameters) (oc : OperatingConditions)
    (ec : EnvironmentalConditions) (now : ℝ)
    (hrad : lp.conductor_radius_cm = 0) (hlen : lp.length_km ≠ 0)
    (hV : 0 < oc.reception_voltage_kV)
    (hy : Complex.I * ((2 * Real.pi * SYSTEM_FREQUENCY *
      lp.capacitance_total_F / lp.length_km : ℝ) : ℂ) ≠ 0)
    (hA : Complex.abs (Complex.cosh
      (((((lp.resistance_total_ohm / lp.length_km : ℝ) : ℂ) + Complex.I *
          ((2 * Real.pi * SYSTEM_FREQUENCY *
            lp.inductance_total_H / lp.length_km : ℝ) : ℂ)) *
        (Complex.I * ((2 * Real.pi * SYSTEM_FREQUENCY *
          lp.capacitance_total_F / lp.length_km : ℝ) : ℂ))) ^
        (1 / 2 : ℂ) * (lp.length_km : ℂ))) ≠ 0) :
    (generate_performance_analysis self lp oc ec now).1.corona =
      .error "Error en análisis de corona: float division by zero" ∧
    (generate_performance_analysis self lp oc ec now).1.losses =
      calculate_power_losses oc.reception_voltage_kV
        oc.reception_power_MVA lp.resistance_total_ohm ∧
    (generate_performance_analysis self lp oc ec now).1.regulation =
      calculate_voltage_regulation lp.resistance_total_ohm
        lp.inductance_total_H lp.capacitance_total_F lp.length_km
        oc.reception_voltage_kV oc.reception_power_MVA oc.power_factor
        true ∧
    (∃ l, (generate_performance_analysis self lp oc ec now).1.losses =
      .ok l) ∧
    (∃ g, (generate_performance_analysis self lp oc ec now).1.regulation =
      .ok g) := by
  have hcorona : verify_corona_effect oc.reception_voltage_kV
      lp.conductor_radius_cm lp.DMG_cm ec.roughness_factor
      ec.temperature_C ec.pressure_atm =
      .error "Error en análisis de corona: float division by zero" := by
    rw [verify_corona_effect]
    by_cases ht : (273 : ℝ) + ec.temperature_C = 0
    · rw [if_pos ht]
    · rw [if_neg ht, if_pos hrad]
  have hVphase : ¬ (|(oc.reception_voltage_kV * 1000) / Real.sqrt 3| = 0) := by
    have h3 : (0 : ℝ) < Real.sqrt 3 := Real.sqrt_pos.mpr (by norm_num)
    have : 0 < (oc.reception_voltage_kV * 1000) / Real.sqrt 3 :=
      div_pos (by linarith) h3
    simp only [abs_eq_zero]
    exact ne_of_gt this
  have hloss : ∃ l, calculate_power_losses oc.reception_voltage_kV
      oc.reception_power_MVA lp.resistance_total_ohm = .ok l := by
    rw [calculate_power_losses, if_neg (not_le.mpr hV)]
    exact ⟨_, rfl⟩
  have hreg : ∃ g, calculate_voltage_regulation lp.resistance_total_ohm
      lp.inductance_total_H lp.capacitance_total_F lp.length_km
      oc.reception_voltage_kV oc.reception_power_MVA oc.power_factor
      true = .ok g := by
    rw [calculate_voltage_regulation, if_neg hlen]
    dsimp only
    rw [if_neg hy, if_neg hA, if_neg hVphase]
    exact ⟨_, rfl⟩
  exact ⟨hcorona, rfl, rfl, hloss, hreg⟩

/-- Witness for claim C7: a line with zero conductor radius (corona
raises), 200 km length, zero series impedance and unit capacitance (so
`z = 0`, `A = cosh 0 = 1` and the regulation no-raise hypotheses are
checkable), at the spec's example operating point. -/
theorem analyze_isolates_corona_failure_witness :
    ((0 : ℝ) = 0) ∧
    ((200 : ℝ) ≠ 0) ∧
    ((0 : ℝ) < 230) ∧
    (Complex.I *
      ((2 * Real.pi * SYSTEM_FREQUENCY * 1 / 200 : ℝ) : ℂ) ≠ 0) ∧
    (Complex.abs (Complex.cosh
      ((((((0 : ℝ) / 200 : ℝ) : ℂ) + Complex.I *
          ((2 * Real.pi * SYSTEM_FREQUENCY * 0 / 200 : ℝ) : ℂ)) *
        (Complex.I *
          ((2 * Real.pi * SYSTEM_FREQUENCY * 1 / 200 : ℝ) : ℂ))) ^
        (1 / 2 : ℂ) * ((200 : ℝ) : ℂ))) ≠ 0) ∧
    ((generate_performance_analysis ⟨[]⟩ ⟨0, 0, 1, 200, 0, 750⟩
        ⟨230, 300, 0.95⟩ ⟨0.85, 25, 1⟩ 0).1.corona =
      .error "Error en análisis de corona: float division by zero" ∧
    (generate_performance_analysis ⟨[]⟩ ⟨0, 0, 1, 200, 0, 750⟩
        ⟨230, 300, 0.95⟩ ⟨0.85, 25, 1⟩ 0).1.losses =
      calculate_power_losses 230 300 0 ∧
    (generate_performance_analysis ⟨[]⟩ ⟨0, 0, 1, 200, 0, 750⟩
        ⟨230, 300, 0.95⟩ ⟨0.85, 25, 1⟩ 0).1.regulation =
      calculate_voltage_regulation 0 0 1 200 230 300 0.95 true ∧
    (∃ l, (generate_performance_analysis ⟨[]⟩ ⟨0, 0, 1, 200, 0, 750⟩
        ⟨230, 300, 0.95⟩ ⟨0.85, 25, 1⟩ 0).1.losses = .ok l) ∧
    (∃ g, (generate_performance_analysis ⟨[]⟩ ⟨0, 0, 1, 200, 0, 750⟩
        ⟨230, 300, 0.95⟩ ⟨0.85, 25, 1⟩ 0).1.regulation = .ok g)) :=
  ⟨rfl, by norm_num, by norm_num,
    mul_ne_zero Complex.I_ne_zero (Complex.ofReal_ne_zero.mpr (by
      simp only [SYSTEM_FREQUENCY]
      positivity)),
    by
      simp [SYSTEM_FREQUENCY,
        Complex.zero_cpow (show (1 / 2 : ℂ) ≠ 0 by norm_num)],
    analyze_isolates_corona_failure ⟨[]⟩ ⟨0, 0, 1, 200, 0, 750⟩
      ⟨230, 300, 0.95⟩ ⟨0.85, 25, 1⟩ 0 rfl (by norm_num) (by norm_num)
      (mul_ne_zero Complex.I_ne_zero (Complex.ofReal_ne_zero.mpr (by
        simp only [SYSTEM_FREQUENCY]
        positivity)))
      (by
        simp [SYSTEM_FREQUENCY,
          Complex.zero_cpow (show (1 / 2 : ℂ) ≠ 0 by norm_num)])⟩

end
